import Mathlib

/-
  Verification of the cluster supervisor / IPC fabric
  (discord-hybrid-sharding: Cluster.js, PromiseHandler, ClusterClient, Child).

  Shallow embedding conventions:
  * JavaScript numbers that matter here are naturals (timestamps, counters, ids);
    `Date.now()` is passed in explicitly as a `now : Nat` argument.
  * JavaScript objects that are only dispatched on are structures of `Bool` /
    `Option` fields; a truthiness test `if (m.f)` on a string field is modelled
    by `jsTruthyStr` (the empty string is falsy), on other fields by a `Bool`.
  * `obj.hasOwnProperty(k)` is modelled by a dedicated `Bool` field.
  * Mutable state is threaded explicitly; handlers return the new state
    together with the list of observable events they fired (emits, sends,
    promise settlements), in program order.
  * Fallible JavaScript (property access on `undefined`, `throw`) is `Except`.
-/

/-- Errors thrown or used to reject promises in the embedded code. -/
inductive JsError where
  /-- `TypeError`, e.g. reading a property of `undefined`/`null`. -/
  | typeError
  /-- `'NO CHILD/MASTER EXISTS OR SUPPLIED CLUSTER_MANAGER_MODE IS INCORRECT'` -/
  | noChildOrMasterOrBadMode
  /-- `'Eval Request Timed out'` -/
  | evalRequestTimedOut
  /-- an error value carried inside a message (`_error`), kept opaque -/
  | carried (tag : Nat)
  deriving DecidableEq, Repr

/-- JavaScript values as far as the embedded code inspects them:
`undefined`, `null`, primitives (numbers, booleans — collapsed to a `Nat` tag),
strings, arrays and plain objects (association lists of own properties). -/
inductive JV where
  | undef
  | jsNull
  | prim (n : Nat)
  | str (s : String)
  | arr (elems : List JV)
  | obj (fields : List (String × JV))

/-- JavaScript truthiness of an optional string field (`undefined` and `""` are falsy). -/
def jsTruthyStr (o : Option String) : Bool :=
  match o with
  | none => false
  | some s => s ≠ ""

/-! ## Heartbeat watchdog and restart budget (Cluster.js `_checkIfClusterAlive`) -/

/-- The `keepAlive` manager option:
`{interval, maxMissedHeartbeats, maxClusterRestarts}`. -/
structure KeepAlive where
  interval : Nat
  maxMissedHeartbeats : Nat
  maxClusterRestarts : Nat
  deriving DecidableEq, Repr

/-- Manager-side heartbeat record for one cluster: `heartbeat.last` (absent
until the first beat; then a timestamp) and `heartbeat.missed`. -/
structure HBState where
  last : Option Nat
  missed : Nat
  deriving DecidableEq, Repr

/-- What the restart-budget gate in `_checkIfClusterAlive` does on one
heartbeat-triggered respawn trigger. -/
inductive RestartAction where
  /-- falls through to `_cleanupHeartbeat(); this.respawn();` -/
  | respawn
  /-- `current === maxClusterRestarts`: `return this.manager._debug(...)` — log only -/
  | logOnly
  /-- `current > maxClusterRestarts`: bare `return` — no log, no respawn -/
  | silent
  deriving DecidableEq, Repr

/-- The restart-budget gate from `_checkIfClusterAlive`:
`this._restarts.current++;` then
`if (current === maxClusterRestarts) return debug(...);`
`if (current > maxClusterRestarts) return;`
otherwise fall through to the respawn. Returns the action taken and the new
`_restarts.current`. -/
def restartGate (current maxClusterRestarts : Nat) : RestartAction × Nat :=
  let c := current + 1
  if c = maxClusterRestarts then (RestartAction.logOnly, c)
  else if c > maxClusterRestarts then (RestartAction.silent, c)
  else (RestartAction.respawn, c)

/-- The hourly window rollover: `setInterval(() => { this._restarts.current = 0; }, 60000*60)`. -/
def restartsWindowRollover (_current : Nat) : Nat := 0

/-- Outcome of one tick of the manager-side heartbeat check interval. -/
inductive TickResult where
  /-- `last` absent (`diff` is `NaN`) or `diff ≤ interval + 2000`: nothing happens -/
  | noop
  /-- a heartbeat was missed but the gate did not fire
  (`missed ≤ maxMissedHeartbeats` after the increment) -/
  | missedOnly
  /-- the gate fired (`missed > maxMissedHeartbeats`) with the given action -/
  | gate (a : RestartAction)
  deriving DecidableEq, Repr

/-- One tick of the `setInterval` body installed by `_checkIfClusterAlive`
(Cluster.js lines 560–592), for a cluster whose `_restarts.current` is
initialised (the constructor sets it to `0` whenever `keepAlive` is set).
`diff = Date.now() - Number(this.heartbeat.last)`; when `last` is absent the
`isNaN(diff)` guard returns.  On `diff > interval + 2000` the code increments
`missed`; when `missed > maxMissedHeartbeats` it runs the restart gate, and on
`RestartAction.respawn` it calls `_cleanupHeartbeat()` and `this.respawn()`
(modelled separately by `cleanupHeartbeat` / `Cluster.kill`). -/
def checkTick (now : Nat) (ka : KeepAlive) (hb : HBState) (current : Nat) :
    TickResult × HBState × Nat :=
  match hb.last with
  | none => (TickResult.noop, hb, current)
  | some last =>
    let diff := now - last
    if diff > ka.interval + 2000 then
      let hb' : HBState := { hb with missed := hb.missed + 1 }
      if hb'.missed > ka.maxMissedHeartbeats then
        let (a, c') := restartGate current ka.maxClusterRestarts
        (TickResult.gate a, hb', c')
      else (TickResult.missedOnly, hb', current)
    else (TickResult.noop, hb, current)

/-! ## Dotted-path property fetch (ClusterClient `_handleMessage`, `_fetchProp`) -/

/-- One JavaScript property read `value[prop]`: throws `TypeError` on
`undefined`/`null`, yields the own property (or `undefined` when absent) on an
object, and `undefined` on primitives/strings/arrays (no own properties are
modelled on them). -/
def getProp (v : JV) (p : String) : Except JsError JV :=
  match v with
  | JV.undef => Except.error JsError.typeError
  | JV.jsNull => Except.error JsError.typeError
  | JV.obj fields =>
    match fields.lookup p with
    | some w => Except.ok w
    | none => Except.ok JV.undef
  | _ => Except.ok JV.undef

/-- The loop in the `_fetchProp` branch of `ClusterClient._handleMessage`:
`let value = this.client; for (const prop of props) value = value[prop];`. -/
def fetchPath (client : JV) (props : List String) : Except JsError JV :=
  match props with
  | [] => Except.ok client
  | p :: rest =>
    match getProp client p with
    | Except.error e => Except.error e
    | Except.ok v => fetchPath v rest

/-- Accumulator loop for `splitChar`. -/
def splitCharAux (sep : Char) : List Char → List Char → List String
  | [], acc => [String.mk acc.reverse]
  | c :: rest, acc =>
    if c = sep then String.mk acc.reverse :: splitCharAux sep rest []
    else splitCharAux sep rest (c :: acc)

/-- JavaScript `s.split(sep)` for a one-character separator
(`"a.b" → ["a","b"]`, `"" → [""]`, `"a." → ["a",""]`). -/
def splitChar (sep : Char) (s : String) : List String :=
  splitCharAux sep s.data []

/-- `message._fetchProp.split('.')` followed by the fetch loop:
the whole dotted-path resolution performed by the child for `_fetchProp`. -/
def fetchClientPath (client : JV) (path : String) : Except JsError JV :=
  fetchPath client (splitChar '.' path)

/-! ## Child bootstrap (`ClusterClient.getInfo`) -/

/-- The environment variables `ClusterClient.getInfo` reads in process mode. -/
structure BootEnv where
  CLUSTER_MANAGER_MODE : Option String := none
  SHARD_LIST : Option String := none
  TOTAL_SHARDS : Option String := none
  CLUSTER_COUNT : Option String := none
  CLUSTER : Option String := none
  KEEP_ALIVE_INTERVAL : Option String := none
  CLUSTER_QUEUE_MODE : Option String := none
  deriving DecidableEq, Repr

/-- Digit-by-digit decimal parsing. -/
def parseNatAux : List Char → Nat → Option Nat
  | [], acc => some acc
  | c :: rest, acc =>
    if c.isDigit then parseNatAux rest (acc * 10 + (c.toNat - 48))
    else none

/-- JavaScript `Number(s)` on the environment strings the claims touch:
`none` stands for `NaN` (an absent variable or a non-decimal string);
`Number('')` is `0`.  Floats and signs are outside the claims. -/
def jsNumber (s : Option String) : Option Nat :=
  match s with
  | none => none
  | some s =>
    match s.data with
    | [] => some 0
    | l => parseNatAux l 0

/-- The info record `getInfo` builds in process mode (worker mode takes it
verbatim from `workerData`). -/
structure BootInfo where
  SHARD_LIST : List (Option Nat)
  TOTAL_SHARDS : Option Nat
  CLUSTER_COUNT : Option Nat
  CLUSTER : Option Nat
  CLUSTER_MANAGER_MODE : String
  KEEP_ALIVE_INTERVAL : Option Nat
  CLUSTER_QUEUE_MODE : Option String
  FIRST_SHARD_ID : Option Nat
  LAST_SHARD_ID : Option Nat
  deriving DecidableEq, Repr

/-- Possible completions of `ClusterClient.getInfo()`. -/
inductive GetInfoResult where
  /-- `if (!clusterMode) return;` — the function returns `undefined` -/
  | retUndefined
  /-- a `throw` escaped the function -/
  | threw (e : JsError)
  /-- normal return -/
  | ok (info : BootInfo)
  deriving DecidableEq, Repr

/-- `ClusterClient.getInfo()`: reads `CLUSTER_MANAGER_MODE`; `undefined` or
`""` (falsy) makes the function `return` with value `undefined`; a value other
than `'worker'`/`'process'` throws `NO CHILD/MASTER EXISTS OR SUPPLIED
CLUSTER_MANAGER_MODE IS INCORRECT`.  In process mode it then parses the shard
list (`process.env.SHARD_LIST.split(',')` throws a `TypeError` when the
variable is absent) and the numeric fields; in worker mode it takes
`workerData` as the record (reading `data.SHARD_LIST[0]` throws a `TypeError`
when `workerData` is `undefined`).  Finally it sets `FIRST_SHARD_ID` /
`LAST_SHARD_ID` from the ends of the shard list. -/
def getInfo (env : BootEnv) (workerData : Option BootInfo) : GetInfoResult :=
  match env.CLUSTER_MANAGER_MODE with
  | none => GetInfoResult.retUndefined
  | some mode =>
    if mode = "" then GetInfoResult.retUndefined
    else if mode ≠ "worker" ∧ mode ≠ "process" then
      GetInfoResult.threw JsError.noChildOrMasterOrBadMode
    else if mode = "process" then
      match env.SHARD_LIST with
      | none => GetInfoResult.threw JsError.typeError
      | some sl =>
        let shardList := (splitChar ',' sl).map (fun c => jsNumber (some c))
        GetInfoResult.ok {
          SHARD_LIST := shardList
          TOTAL_SHARDS := jsNumber env.TOTAL_SHARDS
          CLUSTER_COUNT := jsNumber env.CLUSTER_COUNT
          CLUSTER := jsNumber env.CLUSTER
          CLUSTER_MANAGER_MODE := mode
          KEEP_ALIVE_INTERVAL := jsNumber env.KEEP_ALIVE_INTERVAL
          CLUSTER_QUEUE_MODE := env.CLUSTER_QUEUE_MODE
          FIRST_SHARD_ID := (shardList.headD none)
          LAST_SHARD_ID := (shardList.getLastD none) }
    else
      match workerData with
      | none => GetInfoResult.threw JsError.typeError
      | some d =>
        GetInfoResult.ok { d with
          FIRST_SHARD_ID := (d.SHARD_LIST.headD none)
          LAST_SHARD_ID := (d.SHARD_LIST.getLastD none) }

/-- The first read the `ClusterClient` constructor performs:
`this.mode = this.info.CLUSTER_MANAGER_MODE`. When `getInfo` returned
`undefined` this property access throws a `TypeError`; a `throw` from
`getInfo` propagates unchanged. -/
def clusterClientBootstrap (env : BootEnv) (workerData : Option BootInfo) :
    Except JsError BootInfo :=
  match getInfo env workerData with
  | GetInfoResult.retUndefined => Except.error JsError.typeError
  | GetInfoResult.threw e => Except.error e
  | GetInfoResult.ok info => Except.ok info

/-! ## PromiseHandler (the nonce registry) -/

/-- Nonces are locally unique correlation ids; their string shape is irrelevant
to the registry logic, so they are numbered. -/
abbrev Nonce := Nat

/-- A waiter stored in `PromiseHandler`'s `nonce` map:
`{ resolve, reject, options }`, later mutated with `results` and possibly a
`timeout` handle.  The completion channel itself is observed through events. -/
structure PWaiter where
  /-- `promise.results`: absent (`undefined`) until the first `insertResult` -/
  results : Option (List JV) := none
  /-- `promise.options.limit` -/
  limit : Option Nat := none
  /-- whether `promise.timeout` holds an armed timer -/
  timeoutArmed : Bool := false

/-- The registry: `this.nonce`, a `Map` from nonce to waiter. -/
abbrev PRegistry := List (Nonce × PWaiter)

/-- `Map.delete`. -/
def regErase (reg : PRegistry) (n : Nonce) : PRegistry :=
  reg.filter (fun p => p.1 ≠ n)

/-- `Map.set`: replaces an existing key in place, otherwise appends. -/
def regSet (reg : PRegistry) (n : Nonce) (w : PWaiter) : PRegistry :=
  if (reg.lookup n).isSome then reg.map (fun p => if p.1 = n then (n, w) else p)
  else reg ++ [(n, w)]

/-- The message shape `PromiseHandler.resolve` inspects:
`{ nonce, _error?, _result? }` (an absent `_result` is `undefined`). -/
structure PMsg where
  nonce : Nonce
  _error : Option JsError := none
  _result : JV := JV.undef

/-- A settlement of the single-shot completion channel of a waiter. -/
inductive PEvent where
  /-- `promise.resolve(v)` was called for nonce `n` -/
  | resolved (n : Nonce) (v : JV)
  /-- `promise.reject(e)` was called for nonce `n` -/
  | rejected (n : Nonce) (e : JsError)

/-- `PromiseHandler.resolve(message)`: looks the waiter up by nonce; when
present, clears its timeout, deletes the entry, and rejects (when the message
carries `_error`) or resolves with `message._result`. -/
def PromiseHandler.resolve (reg : PRegistry) (m : PMsg) : PRegistry × List PEvent :=
  match reg.lookup m.nonce with
  | none => (reg, [])
  | some _w =>
    -- if (promise.timeout) clearTimeout(promise.timeout);
    -- this.nonce.delete(message.nonce);
    let reg := regErase reg m.nonce
    match m._error with
    | some e => (reg, [PEvent.rejected m.nonce e])
    | none => (reg, [PEvent.resolved m.nonce m._result])

/-- `PromiseHandler.insertResult({ nonce, _result, _error })`.  The JavaScript
waiter object is aliased by the map entry, so in-place mutations
(`promise.results = []`, `promise.results.push(_result)`) are mirrored into
the registry whenever the entry is still present.  Note the final
`this.nonce.set(nonce, promise)`, which runs even after `this.resolve(...)`
deleted the entry. -/
def PromiseHandler.insertResult (reg : PRegistry) (nonce : Nonce) (res : JV)
    (err : Option JsError) : PRegistry × List PEvent :=
  match reg.lookup nonce with
  | none => (reg, [])
  | some w0 =>
    -- if (!promise.results) promise.results = [];
    let w1 : PWaiter := { w0 with results := some (w0.results.getD []) }
    let reg1 := regSet reg nonce w1
    -- if (_error) this.resolve({ nonce, _error });
    let step2 : PRegistry × List PEvent :=
      match err with
      | some e => PromiseHandler.resolve reg1 { nonce := nonce, _error := some e }
      | none => (reg1, [])
    -- promise.results.push(_result);
    let w2 : PWaiter := { w1 with results := some (w1.results.getD [] ++ [res]) }
    let reg2 := if (step2.1.lookup nonce).isSome then regSet step2.1 nonce w2 else step2.1
    -- if (promise.options.limit === promise.results.length) this.resolve({ nonce, _result: promise.results });
    let step3 : PRegistry × List PEvent :=
      if w2.limit = some (w2.results.getD []).length then
        PromiseHandler.resolve reg2 { nonce := nonce, _result := JV.arr (w2.results.getD []) }
      else (reg2, [])
    -- this.nonce.set(nonce, promise);
    (regSet step3.1 nonce w2, step2.2 ++ step3.2)

/-! ## `Cluster.spawn` ready handshake (Cluster.js lines 159–195) -/

/-- The `spawnTimeout` argument as JavaScript sees it: a number or `Infinity`. -/
inductive JsTimeoutArg where
  | num (n : Int)
  | infinity
  deriving DecidableEq, Repr

/-- `if (spawnTimeout === -1 || spawnTimeout === Infinity) return this.thread.process;`
— `true` when `spawn` enters the waiting promise, `false` when it returns the
child handle immediately. -/
def spawnWaits (t : JsTimeoutArg) : Bool :=
  match t with
  | JsTimeoutArg.num n => decide (n ≠ -1)
  | JsTimeoutArg.infinity => false

/-- The events that can settle the spawn promise. -/
inductive SpawnEvent where
  | evReady
  | evDisconnect
  | evDeath
  | evTimerFire
  deriving DecidableEq, Repr

/-- How the spawn promise settles. -/
inductive SpawnOutcome where
  /-- `resolve()` -/
  | resolvedOk
  /-- `reject(new Error('CLUSTERING_READY_DISCONNECTED', ...))` -/
  | readyDisconnected
  /-- `reject(new Error('CLUSTERING_READY_DIED', ...))` -/
  | readyDied
  /-- `reject(new Error('CLUSTERING_READY_TIMEOUT', ...))` -/
  | readyTimeout
  deriving DecidableEq, Repr

/-- The state of the waiting phase of `spawn`: which of the three
`once`-listeners are still registered, whether `spawnTimeoutTimer` is armed,
whether `onReady` already ran `this._cleanupHeartbeat()`, and how the promise
settled (if it did). -/
structure SpawnWait where
  onReady : Bool
  onDisconnect : Bool
  onDeath : Bool
  timerArmed : Bool
  heartbeatCleaned : Bool
  settled : Option SpawnOutcome
  deriving DecidableEq, Repr

/-- Right after `const spawnTimeoutTimer = setTimeout(onTimeout, spawnTimeout);
this.once('ready', onReady); this.once('disconnect', onDisconnect);
this.once('death', onDeath);`. -/
def spawnWaitInit : SpawnWait :=
  { onReady := true, onDisconnect := true, onDeath := true,
    timerArmed := true, heartbeatCleaned := false, settled := none }

/-- `cleanup()`: `clearTimeout(spawnTimeoutTimer); this.off('ready', onReady);
this.off('disconnect', onDisconnect); this.off('death', onDeath);`. -/
def spawnCleanup (s : SpawnWait) : SpawnWait :=
  { s with timerArmed := false, onReady := false, onDisconnect := false, onDeath := false }

/-- A promise settles once; later settlements are no-ops. -/
def settleFirst (o : Option SpawnOutcome) (x : SpawnOutcome) : Option SpawnOutcome :=
  match o with
  | none => some x
  | some y => some y

/-- One event hitting the waiting phase.  A `once`-listener runs only while it
is registered (the emitter removes it on fire; `cleanup` also `off`s it), and
the timer fires only while armed; each handler runs `cleanup()` and settles
the promise, `onReady` additionally running `this._cleanupHeartbeat()` first. -/
def spawnWaitStep (s : SpawnWait) (e : SpawnEvent) : SpawnWait :=
  match e with
  | SpawnEvent.evReady =>
    if s.onReady then
      let s := { s with heartbeatCleaned := true }
      { spawnCleanup s with settled := settleFirst s.settled SpawnOutcome.resolvedOk }
    else s
  | SpawnEvent.evDisconnect =>
    if s.onDisconnect then
      { spawnCleanup s with settled := settleFirst s.settled SpawnOutcome.readyDisconnected }
    else s
  | SpawnEvent.evDeath =>
    if s.onDeath then
      { spawnCleanup s with settled := settleFirst s.settled SpawnOutcome.readyDied }
    else s
  | SpawnEvent.evTimerFire =>
    if s.timerArmed then
      { spawnCleanup s with settled := settleFirst s.settled SpawnOutcome.readyTimeout }
    else s

/-- The outcome each first event is supposed to produce. -/
def spawnExpected (e : SpawnEvent) : SpawnOutcome :=
  match e with
  | SpawnEvent.evReady => SpawnOutcome.resolvedOk
  | SpawnEvent.evDisconnect => SpawnOutcome.readyDisconnected
  | SpawnEvent.evDeath => SpawnOutcome.readyDied
  | SpawnEvent.evTimerFire => SpawnOutcome.readyTimeout

/-! ## Cluster lifecycle: `kill`, `_handleExit`, `respawn`, `_cleanupHeartbeat` -/

/-- Manager-side per-cluster heartbeat bookkeeping: whether the
`heartbeat.interval` check timer is armed and whether the record holds data
(`last`/`missed` from received beats). -/
structure ClusterHB where
  intervalArmed : Bool := false
  hasData : Bool := false
  deriving DecidableEq, Repr

/-- The slice of a `Cluster`'s state the lifecycle paths touch. -/
structure CState where
  /-- `this.thread !== null` -/
  thread : Bool
  ready : Bool
  hb : ClusterHB
  /-- `Object.keys(this.manager.keepAlive).length > 0` -/
  keepAliveNonEmpty : Bool
  deriving DecidableEq, Repr

/-- Observable lifecycle effects. -/
inductive LifeEvent where
  /-- `this.emit('death', ...)` -/
  | emitDeath
  /-- `this.spawn()` was invoked (auto-respawn) -/
  | spawnCalled
  deriving DecidableEq, Repr

/-- `Cluster._cleanupHeartbeat()`: `clearInterval(this.heartbeat.interval);`
then, only when `Object.keys(this.manager.keepAlive).length !== 0`,
`this.heartbeat = {}`. -/
def Cluster.cleanupHeartbeat (c : CState) : CState :=
  let c := { c with hb := { c.hb with intervalArmed := false } }
  if c.keepAliveNonEmpty = false then c
  else { c with hb := { intervalArmed := false, hasData := false } }

/-- `Cluster._handleExit(respawn)`: emits `death`, sets `ready = false` and
`thread = null`, clears `_evals`/`_fetches`, and calls `this.spawn()` when
`respawn` is truthy.  The heartbeat record and its timer are not touched. -/
def Cluster.handleExit (c : CState) (respawnArg : Bool) : CState × List LifeEvent :=
  ({ c with ready := false, thread := false },
   LifeEvent.emitDeath :: if respawnArg then [LifeEvent.spawnCalled] else [])

/-- `Cluster.kill(options)`: `this.thread.kill(options); if (options.force)
this._cleanupHeartbeat(); this._handleExit(false);`. -/
def Cluster.kill (c : CState) (force : Bool) : CState × List LifeEvent :=
  let c := if force then Cluster.cleanupHeartbeat c else c
  Cluster.handleExit c false

/-- The synchronous part of `Cluster.respawn`:
`if (this.thread) this.kill({ force: true });` (the delay and the subsequent
`spawn(timeout)` follow). -/
def Cluster.respawnKillPhase (c : CState) : CState × List LifeEvent :=
  if c.thread then Cluster.kill c true else (c, [])

/-! ## The manager-side dispatcher (`Cluster._handleMessage`) and `Cluster.request` -/

/-- A message as the manager-side dispatcher inspects it.  Fields tested for
truthiness are `Bool` / `Option String`; fields tested with `hasOwnProperty`
get a dedicated `has…` flag; `nonce` is `none` when the envelope carries no
nonce (a `Map.get(undefined)` lookup then finds nothing). -/
structure MMsg where
  _ready : Bool := false
  _disconnect : Bool := false
  _reconnecting : Bool := false
  _keepAlive : Bool := false
  _sFetchProp : Option String := none
  _sFetchPropShard : Option Nat := none
  _sEval : Option String := none
  has_sManagerEval : Bool := false
  has_sClusterEval : Bool := false
  has_sClusterEvalResponse : Bool := false
  _sClusterEvalResponse : JV := JV.undef
  _sRespawnAll : Bool := false
  _spawnNextCluster : Bool := false
  _sCustom : Bool := false
  _sReply : Bool := false
  _sRequest : Bool := false
  nonce : Option Nonce := none
  timeout : Option Nat := none
  _error : Option JsError := none

/-- A waiter in the manager-level `_nonce` map: `{ resolve, reject }`, with a
`requestCluster` tag when registered by `evalOnCluster`. -/
structure MWaiter where
  requestCluster : Option Nat := none
  deriving DecidableEq, Repr

/-- The slice of manager/cluster state the dispatcher and `request` touch. -/
structure MgrState where
  ready : Bool := false
  /-- `this.manager.keepAlive` is truthy -/
  keepAliveSet : Bool := false
  /-- `Object.keys(this.manager.keepAlive).length > 0` -/
  keepAliveNonEmpty : Bool := false
  /-- manager-side heartbeat record of this cluster -/
  hb : HBState := { last := none, missed := 0 }
  /-- `this.manager._nonce` -/
  nonceMap : List (Nonce × MWaiter) := []
  /-- armed `'Eval Request Timed out'` timers, by nonce, with their delay -/
  timers : List (Nonce × Nat) := []
  /-- ids present in `this.manager.clusters` -/
  clusters : List Nat := []

/-- Observable effects of the manager-side dispatcher. -/
inductive MEvent where
  | emitReady
  | emitDisconnect
  | emitReconnecting
  /-- `this.send({ ack: true, last: Date.now() })` from `_heartbeatMessage` -/
  | ackSent
  /-- `this.manager.fetchClientValues(prop, shard)` fan-out started -/
  | startFetchFanout (prop : String) (shard : Option Nat)
  /-- `this.manager._performOnShards('eval', ...)` fan-out started -/
  | startEvalFanout (script : String)
  /-- `this.manager.evalOnManager(...)` started -/
  | startManagerEval
  /-- `this.manager.evalOnCluster(script, { ...message, requestCluster: this.id })` started -/
  | startEvalOnCluster (requestCluster : Nat)
  /-- `promise.resolve(v)` on the manager-level waiter for `n` -/
  | settleResolve (n : Nonce) (v : JV)
  /-- `promise.resolve(message)` — the whole envelope is the resolved value -/
  | settleResolveWithMsg (n : Nonce) (m : MMsg)
  /-- `promise.reject(e)` on the manager-level waiter for `n` -/
  | settleReject (n : Nonce) (e : JsError)
  /-- `this.manager.clusters.get(c).send(message)` -/
  | sendTo (c : Nat) (m : MMsg)
  /-- `this.manager.respawnAll(...)` started -/
  | respawnAllStarted
  /-- `this.manager.queue.next()` -/
  | queueNext
  /-- `this.manager.emit('clientRequest', emitMessage)` -/
  | emitClientRequest
  /-- `this.emit('message', emitMessage)` -/
  | emitMessage

/-- `Map.get(message.nonce)` on the manager `_nonce` map. -/
def mnLookup (reg : List (Nonce × MWaiter)) (n : Option Nonce) : Option MWaiter :=
  match n with
  | none => none
  | some n => reg.lookup n

/-- `Map.delete(message.nonce)` on the manager `_nonce` map. -/
def mnErase (reg : List (Nonce × MWaiter)) (n : Option Nonce) : List (Nonce × MWaiter) :=
  match n with
  | none => reg
  | some n => reg.filter (fun p => p.1 ≠ n)

/-- Modelled from the spec: `IPCMessage` (src/Structures/IPCMessage.js is not
among the provided sources) wraps the raw envelope for the `message` event,
preserving the envelope fields — in particular `_sRequest`, which the
dispatcher then tests on the wrapper (§4.4: "otherwise wrap as IPCMessage,
emit `message`"). -/
def ipcMessageOf (m : MMsg) : MMsg := m

/-- The discriminators whose branches in `Cluster._handleMessage` end with
`return` — every one except `_sCustom`.  A message matching one of these never
reaches the trailing `emit('message')` block. -/
def earlyReturnMatch (m : MMsg) : Bool :=
  m._ready || m._disconnect || m._reconnecting || m._keepAlive ||
  jsTruthyStr m._sFetchProp || jsTruthyStr m._sEval ||
  m.has_sManagerEval || m.has_sClusterEval || m.has_sClusterEvalResponse ||
  m._sRespawnAll || m._spawnNextCluster

/-- `Cluster._handleMessage(message)` (Cluster.js lines 356–501).  Sequential
`if` branches ending in `return` are an else-if chain; the `_sCustom` branch
has no `return`, and the trailing block
`let emitMessage = new IPCMessage(this, message); if (emitMessage._sRequest)
manager.emit('clientRequest', ...); this.emit('message', emitMessage);`
runs for every message that did not return earlier — including a falsy
`message`, which skips the whole chain (`typeof null === 'object'`). -/
def Cluster.handleMessage (selfId : Nat) (now : Nat) (st : MgrState)
    (msg : Option MMsg) : MgrState × List MEvent :=
  match msg with
  | none => (st, [MEvent.emitMessage])
  | some m =>
    if m._ready then
      -- this.ready = true; emit('ready'); this._cleanupHeartbeat(); this._checkIfClusterAlive();
      -- (the heartbeat teardown/re-arm is modelled by Cluster.cleanupHeartbeat / checkTick)
      ({ st with ready := true }, [MEvent.emitReady])
    else if m._disconnect then
      ({ st with ready := false }, [MEvent.emitDisconnect])
    else if m._reconnecting then
      ({ st with ready := false }, [MEvent.emitReconnecting])
    else if m._keepAlive then
      -- if (this.manager.keepAlive) this._heartbeatMessage(message); return;
      -- _heartbeatMessage re-checks keepAlive truthy and non-empty, then records
      -- the beat and acks
      if st.keepAliveSet ∧ st.keepAliveNonEmpty then
        ({ st with hb := { last := some now, missed := 0 } }, [MEvent.ackSent])
      else (st, [])
    else if jsTruthyStr m._sFetchProp then
      (st, [MEvent.startFetchFanout (m._sFetchProp.getD "") m._sFetchPropShard])
    else if jsTruthyStr m._sEval then
      (st, [MEvent.startEvalFanout (m._sEval.getD "")])
    else if m.has_sManagerEval then
      (st, [MEvent.startManagerEval])
    else if m.has_sClusterEval then
      (st, [MEvent.startEvalOnCluster selfId])
    else if m.has_sClusterEvalResponse then
      match mnLookup st.nonceMap m.nonce with
      | none => (st, [])
      | some w =>
        -- reject/resolve the waiter, delete the nonce, and when
        -- `this.manager.clusters.has(promise.requestCluster)`, re-send the
        -- envelope to that cluster
        let st' := { st with nonceMap := mnErase st.nonceMap m.nonce }
        let settleEv :=
          match m._error with
          | some e => MEvent.settleReject (m.nonce.getD 0) e
          | none => MEvent.settleResolve (m.nonce.getD 0) m._sClusterEvalResponse
        let fwd :=
          match w.requestCluster with
          | some rc => if st.clusters.contains rc then [MEvent.sendTo rc m] else []
          | none => []
        (st', settleEv :: fwd)
    else if m._sRespawnAll then
      (st, [MEvent.respawnAllStarted])
    else if m._spawnNextCluster then
      (st, [MEvent.queueNext])
    else
      let (st1, evs1) :=
        if m._sCustom ∧ m._sReply then
          match mnLookup st.nonceMap m.nonce with
          | some _ =>
            ({ st with nonceMap := mnErase st.nonceMap m.nonce },
             [MEvent.settleResolveWithMsg (m.nonce.getD 0) m])
          | none => (st, [])
        else (st, [])
      let evs2 := if (ipcMessageOf m)._sRequest then [MEvent.emitClientRequest] else []
      (st1, evs1 ++ evs2 ++ [MEvent.emitMessage])

/-- The value `this.thread.send(message)` evaluates to: a promise object
(always truthy). -/
inductive SendResult where
  | promiseOf (m : MMsg)

/-- Modelled from the spec: `BaseMessage#toJSON` (src/Structures/IPCMessage.js
is not among the provided sources) serialises the envelope, allocating a fresh
nonce when none is present and echoing an existing one (§3 "Nonce", §6.3
"Reply envelopes always echo `nonce` when one was supplied"). -/
def baseMessageToJSON (fresh : Nonce) (m : MMsg) : MMsg :=
  match m.nonce with
  | some _ => m
  | none => { m with nonce := some fresh }

/-- `Cluster.send(message)` — a single-parameter function: wraps plain objects
via `BaseMessage` and returns `this.thread.send(message)`.  When `this.thread`
is `null`, the member access throws a `TypeError` synchronously. -/
def Cluster.send (fresh : Nonce) (threadAlive : Bool) (message : MMsg) :
    Except JsError SendResult :=
  let message := baseMessageToJSON fresh message
  if threadAlive then Except.ok (SendResult.promiseOf message)
  else Except.error JsError.typeError

/-- The callback literal that `Cluster.request` passes as a fourth argument to
`this.send`: `e => { if (e) reject(...); setTimeout(() => { if
(this.manager._nonce.has(nonce)) { ...reject(new Error('Eval Request Timed
out')); ...delete(nonce); } }, message.timeout || 10000); }`.  It is the only
place `request` would arm the timeout timer — but `Cluster.send` declares a
single parameter, so this callback is discarded and never invoked. -/
def requestSendCallback (st : MgrState) (n : Nonce) (timeout : Option Nat) : MgrState :=
  { st with timers := st.timers ++ [(n, timeout.getD 10000)] }

/-- Firing of an armed `'Eval Request Timed out'` timer for nonce `n`: only a
timer present in `st.timers` can fire; its body rejects the waiter (when still
registered) and removes the nonce. -/
def evalTimeoutFire (st : MgrState) (n : Nonce) : MgrState × List MEvent :=
  if (st.timers.lookup n).isSome then
    let st := { st with timers := st.timers.filter (fun p => p.1 ≠ n) }
    if (st.nonceMap.lookup n).isSome then
      ({ st with nonceMap := st.nonceMap.filter (fun p => p.1 ≠ n) },
       [MEvent.settleReject n JsError.evalRequestTimedOut])
    else (st, [])
  else (st, [])

/-- How the promise returned by `Cluster.request` stands after the body ran. -/
inductive ReqOutcome where
  /-- `.catch(e => ({ ...message, error: new Error(e.toString()) }))` converted
  a rejection into a resolved value-with-error -/
  | resolvedWithError
  /-- awaiting a reply through the registry -/
  | pending
  deriving DecidableEq, Repr

/-- `Cluster.request(message)` (Cluster.js lines 237–255): sets
`_sRequest = true`, `_sReply = false`, serialises (allocating the nonce),
registers `{ resolve, reject }` under the nonce, then calls
`const sent = this.send(message, void 0, void 0, cb)`.  `Cluster.send` takes a
single parameter, so `cb` (see `requestSendCallback`) is never invoked and no
timer is armed; `sent` is a promise object, hence truthy, so
`if (!sent) reject(...)` never fires.  A synchronous throw from `send` (dead
thread) rejects the promise and the final `.catch` converts the rejection
into a resolved `{ ...message, error }`. -/
def Cluster.request (fresh : Nonce) (threadAlive : Bool) (st : MgrState)
    (m : MMsg) : MgrState × ReqOutcome :=
  let m := { m with _sRequest := true, _sReply := false }
  let m := baseMessageToJSON fresh m
  let nonce := m.nonce.getD 0
  let st := { st with nonceMap := st.nonceMap ++ [(nonce, { requestCluster := none })] }
  match Cluster.send fresh threadAlive m with
  | Except.error _ => (st, ReqOutcome.resolvedWithError)
  | Except.ok _ => (st, ReqOutcome.pending)

/-! ## The child-side dispatcher (`ClusterClient._handleMessage`) -/

/-- A message as the child-side dispatcher inspects it (same conventions as
`MMsg`). -/
structure CMsg where
  _fetchProp : Option String := none
  _eval : Option String := none
  has_sClusterEvalRequest : Bool := false
  _sClusterEvalRequest : Option String := none
  has_sClusterEvalResponse : Bool := false
  _sClusterEvalResponse : JV := JV.undef
  has_sManagerEvalResponse : Bool := false
  _sManagerEvalResponse : JV := JV.undef
  ack : Bool := false
  _sCustom : Bool := false
  _sReply : Bool := false
  _sRequest : Bool := false
  nonce : Option Nonce := none
  cluster : Option Nat := none
  _error : Option JsError := none

/-- The slice of `ClusterClient` state `_handleMessage` touches. -/
structure ClientState where
  /-- `this.client` -/
  client : JV := JV.obj []
  /-- nonces with a registered `{ resolve, reject }` waiter in `this._nonce` -/
  nonceMap : List Nonce := []
  /-- `this.heartbeat.last` -/
  hbLast : Option Nat := none
  /-- `this.heartbeat.missed` -/
  hbMissed : Nat := 0

/-- Observable effects of the child-side dispatcher. -/
inductive CEvent where
  /-- `this._respond('fetchProp', { _fetchProp, _result })` -/
  | respondFetchProp (prop : String) (v : JV)
  /-- `this._respond('eval', { _eval, _result })` / `{ _eval, _error }` -/
  | respondEval (script : String) (r : Except JsError JV)
  /-- `this._respond('evalOnCluster', { _sClusterEvalResponse, nonce, ... })` -/
  | respondClusterEval (n : Option Nonce) (r : Except JsError JV)
  /-- `promise.resolve(v)` on the local waiter for `n` -/
  | settleResolve (n : Nonce) (v : JV)
  /-- `promise.resolve(message)` — the whole envelope is the resolved value -/
  | settleResolveWithMsg (n : Nonce) (m : CMsg)
  /-- `promise.reject(e)` on the local waiter for `n` -/
  | settleReject (n : Nonce) (e : JsError)
  /-- `this.emit('message', emitMessage)` — the `message` event -/
  | emitMessage (m : CMsg)

/-- Whether an event is the `message` emission. -/
def isEmitMessage : CEvent → Bool
  | CEvent.respondFetchProp _ _ => false
  | CEvent.respondEval _ _ => false
  | CEvent.respondClusterEval _ _ => false
  | CEvent.settleResolve _ _ => false
  | CEvent.settleResolveWithMsg _ _ => false
  | CEvent.settleReject _ _ => false
  | CEvent.emitMessage _ => true

/-- `Map.get` succeeding on the client `_nonce` map. -/
def cnHas (reg : List Nonce) (n : Option Nonce) : Bool :=
  match n with
  | none => false
  | some n => reg.contains n

/-- `Map.delete` on the client `_nonce` map. -/
def cnErase (reg : List Nonce) (n : Option Nonce) : List Nonce :=
  match n with
  | none => reg
  | some n => reg.filter (fun k => k ≠ n)

/-- `true` when a message matches none of the seven kinds the child-side
dispatcher handles (`_fetchProp`, `_eval`, `_sClusterEvalRequest`,
`_sClusterEvalResponse`, `_sManagerEvalResponse`, `ack`, `_sCustom`). -/
def cNoKindMatch (m : CMsg) : Bool :=
  !(jsTruthyStr m._fetchProp) && !(jsTruthyStr m._eval) &&
  !m.has_sClusterEvalRequest && !m.has_sClusterEvalResponse &&
  !m.has_sManagerEvalResponse && !m.ack && !m._sCustom

/-- `ClusterClient._handleMessage(message)` (the child-side dispatcher).
`evalFn` is the opaque script host (`this._eval`).  Returns the new state, the
events fired, and an uncaught exception if the handler threw (the `_fetchProp`
loop is not wrapped in `try`/`catch`, so a `TypeError` from the dotted-path
walk aborts the async handler and no reply is sent).  The `_sCustom` branch
returns after resolving a reply waiter; without `_sReply` it falls through
(the `_sRequest` arm is commented out) and wraps the envelope as an
`IPCMessage` for the `message` event.  A message matching no kind falls off
the else-if chain: nothing happens. -/
def ClusterClient.handleMessage (evalFn : String → Except JsError JV) (now : Nat)
    (st : ClientState) (msg : Option CMsg) :
    ClientState × List CEvent × Option JsError :=
  match msg with
  | none => (st, [], none)
  | some m =>
    if jsTruthyStr m._fetchProp then
      let prop := m._fetchProp.getD ""
      match fetchClientPath st.client prop with
      | Except.error e => (st, [], some e)
      | Except.ok v => (st, [CEvent.respondFetchProp prop v], none)
    else if jsTruthyStr m._eval then
      -- try { respond with _result } catch { respond with _error }
      (st, [CEvent.respondEval (m._eval.getD "") (evalFn (m._eval.getD ""))], none)
    else if m.has_sClusterEvalRequest then
      (st, [CEvent.respondClusterEval m.nonce (evalFn (m._sClusterEvalRequest.getD ""))], none)
    else if m.has_sClusterEvalResponse then
      if cnHas st.nonceMap m.nonce then
        ({ st with nonceMap := cnErase st.nonceMap m.nonce },
         [match m._error with
          | some e => CEvent.settleReject (m.nonce.getD 0) e
          | none => CEvent.settleResolve (m.nonce.getD 0) m._sClusterEvalResponse], none)
      else (st, [], none)
    else if m.has_sManagerEvalResponse then
      if cnHas st.nonceMap m.nonce then
        ({ st with nonceMap := cnErase st.nonceMap m.nonce },
         [match m._error with
          | some e => CEvent.settleReject (m.nonce.getD 0) e
          | none => CEvent.settleResolve (m.nonce.getD 0) m._sManagerEvalResponse], none)
      else (st, [], none)
    else if m.ack then
      -- this._heartbeatAckMessage(): heartbeat.last = Date.now(); heartbeat.missed = 0;
      ({ st with hbLast := some now, hbMissed := 0 }, [], none)
    else if m._sCustom then
      if m._sReply then
        if cnHas st.nonceMap m.nonce then
          ({ st with nonceMap := cnErase st.nonceMap m.nonce },
           [CEvent.settleResolveWithMsg (m.nonce.getD 0) m], none)
        else (st, [], none)
      else
        (st, [CEvent.emitMessage m], none)
    else (st, [], none)

/-- Whether a manager-side event is the `message` emission. -/
def isMEmitMessage : MEvent → Bool
  | MEvent.emitReady => false
  | MEvent.emitDisconnect => false
  | MEvent.emitReconnecting => false
  | MEvent.ackSent => false
  | MEvent.startFetchFanout _ _ => false
  | MEvent.startEvalFanout _ => false
  | MEvent.startManagerEval => false
  | MEvent.startEvalOnCluster _ => false
  | MEvent.settleResolve _ _ => false
  | MEvent.settleResolveWithMsg _ _ => false
  | MEvent.settleReject _ _ => false
  | MEvent.sendTo _ _ => false
  | MEvent.respawnAllStarted => false
  | MEvent.queueNext => false
  | MEvent.emitClientRequest => false
  | MEvent.emitMessage => true

/-- Whether a manager-side event is the `clientRequest` emission. -/
def isMClientRequest : MEvent → Bool
  | MEvent.emitReady => false
  | MEvent.emitDisconnect => false
  | MEvent.emitReconnecting => false
  | MEvent.ackSent => false
  | MEvent.startFetchFanout _ _ => false
  | MEvent.startEvalFanout _ => false
  | MEvent.startManagerEval => false
  | MEvent.startEvalOnCluster _ => false
  | MEvent.settleResolve _ _ => false
  | MEvent.settleResolveWithMsg _ _ => false
  | MEvent.settleReject _ _ => false
  | MEvent.sendTo _ _ => false
  | MEvent.respawnAllStarted => false
  | MEvent.queueNext => false
  | MEvent.emitClientRequest => true
  | MEvent.emitMessage => false

/-- Whether the manager-side event list contains the `message` emission. -/
def hasEmitMessageEv (evs : List MEvent) : Bool :=
  evs.any isMEmitMessage

/-- Whether the manager-side event list contains the `clientRequest` emission. -/
def hasClientRequestEv (evs : List MEvent) : Bool :=
  evs.any isMClientRequest

/-!
# Theorems

One main theorem per claim, preceded where a claim fails on the code by a
closed counterexample evaluating the embedded code at a concrete input.
-/

/-- Helper: looking up a key after filtering it out finds nothing. -/
theorem lookup_filter_ne {α β : Type} [DecidableEq α] (reg : List (α × β)) (n : α) :
    (reg.filter (fun p => p.1 ≠ n)).lookup n = none := by
  induction reg with
  | nil => rfl
  | cons hd tl ih =>
    rcases hd with ⟨k, v⟩
    simp only [List.filter_cons]
    by_cases h : k = n
    · simp [h, ih]
      exact fun a b _ hh hh2 => hh hh2.symm
    · have h2 : (n == k) = false := by
        simp only [beq_eq_false_iff_ne, ne_eq]
        exact fun hh => h hh.symm
      simp [h, List.lookup, h2, ih]
      exact fun a b _ hh hh2 => hh hh2.symm

/-- C1 counterexample: with `keepAlive = {interval: 1000, maxMissedHeartbeats: 3,
maxClusterRestarts: 2}` and a cluster whose heartbeat is stale, the first
heartbeat trigger in the window respawns, but the second trigger — which the
claim says performs a respawn — only logs (`current` reaches
`maxClusterRestarts` right after the increment), and the third does nothing at
all rather than log. -/
theorem c1_budget_counterexample :
    (checkTick 10000 ⟨1000, 3, 2⟩ ⟨some 0, 3⟩ 0).1 = TickResult.gate RestartAction.respawn ∧
    (checkTick 10000 ⟨1000, 3, 2⟩ ⟨some 0, 3⟩ 1).1 = TickResult.gate RestartAction.logOnly ∧
    (checkTick 10000 ⟨1000, 3, 2⟩ ⟨some 0, 3⟩ 1).1 ≠ TickResult.gate RestartAction.respawn ∧
    (checkTick 10000 ⟨1000, 3, 2⟩ ⟨some 0, 3⟩ 2).1 = TickResult.gate RestartAction.silent := by
  decide

/-- C1 (amended): with `maxClusterRestarts = 2`, only the **first**
heartbeat-triggered trigger in a one-hour window performs a respawn; the
second trigger (the increment reaching the cap) logs and performs no respawn;
every later trigger in the window neither logs nor respawns; and the hourly
window rollover resets the counter so the next trigger respawns again. -/
theorem c1_budget_amended :
    (checkTick 10000 ⟨1000, 3, 2⟩ ⟨some 0, 3⟩ 0).1 = TickResult.gate RestartAction.respawn ∧
    (restartGate 0 2).1 = RestartAction.respawn ∧ (restartGate 0 2).2 = 1 ∧
    (restartGate 1 2).1 = RestartAction.logOnly ∧
    (∀ c : Nat, (restartGate (c + 2) 2).1 = RestartAction.silent) ∧
    (restartGate (restartsWindowRollover 5) 2).1 = RestartAction.respawn := by
  refine ⟨by decide, by decide, by decide, by decide, ?_, by decide⟩
  intro c
  have h1 : ¬(c + 2 + 1 = 2) := by omega
  have h2 : c + 2 + 1 > 2 := by omega
  simp [restartGate, h1, h2]

/-- C2: evaluating `PromiseHandler.insertResult` at its failing inputs.  With a
waiter registered under nonce `5` and `options.limit = 1`, delivering one
result fires the resolve — but the trailing `this.nonce.set(nonce, promise)`
re-inserts the entry, so the registry still contains the nonce afterwards;
likewise delivering an `_error` to nonce `7` fires the reject and the entry is
re-inserted.  The claim (registry no longer contains `n` after settlement) is
what the surrounding code and spec intend, and `resolve` does delete the
entry; the unconditional re-`set` contradicts that lifecycle. -/
theorem c2_insertResult_keeps_nonce :
    ((PromiseHandler.insertResult [(5, { limit := some 1 })] 5 (JV.prim 42) none).2
      = [PEvent.resolved 5 (JV.arr [JV.prim 42])]) ∧
    (((PromiseHandler.insertResult [(5, { limit := some 1 })] 5 (JV.prim 42) none).1.lookup 5).isSome
      = true) ∧
    ((PromiseHandler.insertResult [(7, { limit := some 3 })] 7 JV.undef (some (JsError.carried 1))).2
      = [PEvent.rejected 7 (JsError.carried 1)]) ∧
    (((PromiseHandler.insertResult [(7, { limit := some 3 })] 7 JV.undef (some (JsError.carried 1))).1.lookup 7).isSome
      = true) := by
  exact ⟨rfl, rfl, rfl, rfl⟩

/-- C3: evaluating `Cluster.request` at its failing input.  On a live thread
the body registers the waiter and sends, but arms **no** timer (the arming
code sits in a callback passed as a discarded fourth argument to the
one-parameter `Cluster.send`), so `evalTimeoutFire` can never reject the
waiter and the nonce is never removed; the promise just stays pending.  The
conversion half of the claim does hold: a synchronous send failure (dead
thread) is converted by the final `.catch` into a resolved
`{ ...message, error }` value. -/
theorem c3_request_timer_never_armed :
    ((Cluster.request 9 true {} {}).1.timers = []) ∧
    (((Cluster.request 9 true {} {}).1.nonceMap.lookup 9).isSome = true) ∧
    ((Cluster.request 9 true {} {}).2 = ReqOutcome.pending) ∧
    (evalTimeoutFire (Cluster.request 9 true {} {}).1 9
      = ((Cluster.request 9 true {} {}).1, [])) ∧
    ((Cluster.request 9 false {} {}).2 = ReqOutcome.resolvedWithError) := by
  exact ⟨rfl, rfl, rfl, rfl, rfl⟩

/-- C4: when a `_sClusterEvalResponse` envelope arrives for a registered
nonce whose waiter carries a `requestCluster` present in the manager cluster
map, the dispatcher settles the waiter (reject exactly when the envelope
carries `_error`, resolve with the response payload otherwise), removes the
nonce from the registry, and re-sends the very same envelope to the
originating cluster. -/
theorem c4_clusterEvalResponse_routing (selfId now : Nat) (st : MgrState) (m : MMsg)
    (w : MWaiter) (n rc : Nat)
    (h1 : m._ready = false) (h2 : m._disconnect = false) (h3 : m._reconnecting = false)
    (h4 : m._keepAlive = false) (h5 : jsTruthyStr m._sFetchProp = false)
    (h6 : jsTruthyStr m._sEval = false) (h7 : m.has_sManagerEval = false)
    (h8 : m.has_sClusterEval = false)
    (hresp : m.has_sClusterEvalResponse = true)
    (hn : m.nonce = some n)
    (hw : st.nonceMap.lookup n = some w)
    (hrc : w.requestCluster = some rc)
    (hc : st.clusters.contains rc = true) :
    ((Cluster.handleMessage selfId now st (some m)).1.nonceMap.lookup n = none) ∧
    ((Cluster.handleMessage selfId now st (some m)).2 =
      [(match m._error with
        | some e => MEvent.settleReject n e
        | none => MEvent.settleResolve n m._sClusterEvalResponse),
       MEvent.sendTo rc m]) := by
  simp only [Cluster.handleMessage, h1, h2, h3, h4, h5, h6, h7, h8, hresp,
    Bool.false_eq_true, if_false, if_true, mnLookup, mnErase, hn, hw, hrc, hc]
  constructor
  · exact lookup_filter_ne st.nonceMap n
  · cases m._error <;> simp

/-- C4 witness at a concrete manager state and envelope. -/
theorem c4_clusterEvalResponse_routing_witness :
    ((Cluster.handleMessage 3 0
        { nonceMap := [(7, { requestCluster := some 0 })], clusters := [0, 3] }
        (some { has_sClusterEvalResponse := true, nonce := some 7 })).1.nonceMap.lookup 7
      = none) ∧
    ((Cluster.handleMessage 3 0
        { nonceMap := [(7, { requestCluster := some 0 })], clusters := [0, 3] }
        (some { has_sClusterEvalResponse := true, nonce := some 7 })).2 =
      [MEvent.settleResolve 7 JV.undef,
       MEvent.sendTo 0 { has_sClusterEvalResponse := true, nonce := some 7 }]) := by
  have h := c4_clusterEvalResponse_routing 3 0
    { nonceMap := [(7, { requestCluster := some 0 })], clusters := [0, 3] }
    { has_sClusterEvalResponse := true, nonce := some 7 }
    { requestCluster := some 0 } 7 0
    rfl rfl rfl rfl rfl rfl rfl rfl rfl rfl rfl rfl rfl
  exact ⟨h.1, h.2⟩

/-- C5: `spawn` skips the waiting phase exactly for `spawnTimeout === -1` or
`Infinity`; otherwise the waiting promise settles on the first of
ready/disconnect/death/timer with the corresponding outcome, and on every
outcome the timer is disarmed and all three listeners are removed; any second
event leaves the settled state untouched. -/
theorem c5_spawn_handshake :
    spawnWaits (JsTimeoutArg.num (-1)) = false ∧
    spawnWaits JsTimeoutArg.infinity = false ∧
    spawnWaits (JsTimeoutArg.num 1000) = true ∧
    (∀ e : SpawnEvent,
      (spawnWaitStep spawnWaitInit e).settled = some (spawnExpected e) ∧
      (spawnWaitStep spawnWaitInit e).onReady = false ∧
      (spawnWaitStep spawnWaitInit e).onDisconnect = false ∧
      (spawnWaitStep spawnWaitInit e).onDeath = false ∧
      (spawnWaitStep spawnWaitInit e).timerArmed = false) ∧
    (∀ e e' : SpawnEvent,
      spawnWaitStep (spawnWaitStep spawnWaitInit e) e' = spawnWaitStep spawnWaitInit e) := by
  refine ⟨by decide, by decide, by decide, ?_, ?_⟩
  · intro e
    cases e <;> exact ⟨rfl, rfl, rfl, rfl, rfl⟩
  · intro e e'
    cases e <;> cases e' <;> rfl

/-- C6 counterexample: a cluster with an armed heartbeat interval killed
**without** `force`, and one whose process exit event fires, both end with
`thread = null` while the heartbeat interval is still armed and the record
still holds data — the paths the claim says always clear the timers. -/
theorem c6_kill_counterexample :
    ((Cluster.kill
        { thread := true, ready := true,
          hb := { intervalArmed := true, hasData := true }, keepAliveNonEmpty := true }
        false).1.thread = false) ∧
    ((Cluster.kill
        { thread := true, ready := true,
          hb := { intervalArmed := true, hasData := true }, keepAliveNonEmpty := true }
        false).1.hb.intervalArmed = true) ∧
    ((Cluster.kill
        { thread := true, ready := true,
          hb := { intervalArmed := true, hasData := true }, keepAliveNonEmpty := true }
        false).1.hb.hasData = true) ∧
    ((Cluster.handleExit
        { thread := true, ready := true,
          hb := { intervalArmed := true, hasData := true }, keepAliveNonEmpty := true }
        true).1.thread = false) ∧
    ((Cluster.handleExit
        { thread := true, ready := true,
          hb := { intervalArmed := true, hasData := true }, keepAliveNonEmpty := true }
        true).1.hb.intervalArmed = true) := by
  decide

/-- C6 (amended): heartbeat timers are cleared before `thread` is nulled on
the **force**-kill path — and hence on `respawn`, which force-kills a live
thread — with the record also emptied whenever `keepAlive` is non-empty; the
non-force `kill` path and plain exit handling null the thread without
touching the heartbeat. -/
theorem c6_lifecycle_amended (c : CState) :
    ((Cluster.kill c true).1.hb.intervalArmed = false) ∧
    ((Cluster.kill c true).1.thread = false) ∧
    (c.keepAliveNonEmpty = true →
      (Cluster.kill c true).1.hb = { intervalArmed := false, hasData := false }) ∧
    (c.thread = true → (Cluster.respawnKillPhase c).1.hb.intervalArmed = false ∧
      (Cluster.respawnKillPhase c).1.thread = false) ∧
    ((Cluster.kill c false).1.hb = c.hb) ∧
    ((Cluster.handleExit c true).1.hb = c.hb) := by
  cases c with
  | mk thread ready hb keepAliveNonEmpty =>
    cases keepAliveNonEmpty <;> cases thread <;>
      simp [Cluster.kill, Cluster.cleanupHeartbeat, Cluster.handleExit,
        Cluster.respawnKillPhase]

/-- C6 amended witness at a concrete live cluster. -/
theorem c6_lifecycle_amended_witness :
    ((Cluster.kill
        { thread := true, ready := true,
          hb := { intervalArmed := true, hasData := true }, keepAliveNonEmpty := true }
        true).1.hb.intervalArmed = false) ∧
    ((Cluster.kill
        { thread := true, ready := true,
          hb := { intervalArmed := true, hasData := true }, keepAliveNonEmpty := true }
        true).1.hb = { intervalArmed := false, hasData := false }) ∧
    ((Cluster.respawnKillPhase
        { thread := true, ready := true,
          hb := { intervalArmed := true, hasData := true }, keepAliveNonEmpty := true }).1.thread
      = false) := by
  have h := c6_lifecycle_amended
    { thread := true, ready := true,
      hb := { intervalArmed := true, hasData := true }, keepAliveNonEmpty := true }
  exact ⟨h.1, h.2.2.1 rfl, (h.2.2.2.1 rfl).2⟩

/-- Helper: the fetch loop over a concatenation runs the two halves in
sequence, stopping at the first throw. -/
theorem fetchPath_append (client : JV) (ps qs : List String) :
    fetchPath client (ps ++ qs) =
      (match fetchPath client ps with
       | Except.error e => Except.error e
       | Except.ok v => fetchPath v qs) := by
  induction ps generalizing client with
  | nil => rfl
  | cons p rest ih =>
    simp only [List.cons_append, fetchPath]
    cases getProp client p with
    | error e => rfl
    | ok v => exact ih v

/-- C7 counterexample: on a client object `{a: {b: 1}}`, fetching the dotted
path `"x.b"` — whose **first** segment is missing — throws a `TypeError`
(`undefined["b"]`) instead of returning `undefined` as the claim states. -/
theorem c7_fetch_counterexample :
    fetchClientPath (JV.obj [("a", JV.obj [("b", JV.prim 1)])]) "x.b"
      = Except.error JsError.typeError ∧
    fetchClientPath (JV.obj [("a", JV.obj [("b", JV.prim 1)])]) "x.b"
      ≠ Except.ok JV.undef := by
  refine ⟨rfl, ?_⟩
  intro h
  rw [show fetchClientPath (JV.obj [("a", JV.obj [("b", JV.prim 1)])]) "x.b"
      = Except.error JsError.typeError from rfl] at h
  exact Except.noConfusion h

/-- C7 (amended): the dotted-path fetch returns the value reached by resolving
the segments in order; when only the **last** segment is missing it returns
`undefined`, but when a segment resolves to `undefined` and further segments
remain, the walk throws a `TypeError` (and the child sends no reply) instead
of returning `undefined`. -/
theorem c7_fetch_amended (client : JV) (ps qs : List String) (p : String) :
    (∀ fs, fetchPath client ps = Except.ok (JV.obj fs) → fs.lookup p = none →
      fetchPath client (ps ++ [p]) = Except.ok JV.undef) ∧
    (fetchPath client ps = Except.ok JV.undef → qs ≠ [] →
      fetchPath client (ps ++ qs) = Except.error JsError.typeError) := by
  constructor
  · intro fs hfs hlook
    rw [fetchPath_append, hfs]
    simp [fetchPath, getProp, hlook]
  · intro hundef hne
    rw [fetchPath_append, hundef]
    cases qs with
    | nil => exact absurd rfl hne
    | cons q rest => simp [fetchPath, getProp]

/-- C7 amended witness on the client object `{a: {b: 1}}`: path `a.c`
(last segment missing) yields `undefined`; path `x.b` (earlier segment
missing) throws. -/
theorem c7_fetch_amended_witness :
    fetchPath (JV.obj [("a", JV.obj [("b", JV.prim 1)])]) (["a"] ++ ["c"])
      = Except.ok JV.undef ∧
    fetchPath (JV.obj [("a", JV.obj [("b", JV.prim 1)])]) (["x"] ++ ["b"])
      = Except.error JsError.typeError := by
  constructor
  · exact (c7_fetch_amended (JV.obj [("a", JV.obj [("b", JV.prim 1)])]) ["a"] ["b"] "c").1
      [("b", JV.prim 1)] rfl rfl
  · exact (c7_fetch_amended (JV.obj [("a", JV.obj [("b", JV.prim 1)])]) ["x"] ["b"] "c").2
      rfl (by simp)

/-- C8 counterexample: with `CLUSTER_MANAGER_MODE` absent, `getInfo` returns
`undefined` instead of throwing, and the constructor then dies on the property
access with a `TypeError` — not with the `NoChildOrMasterOrBadMode` error the
claim names. -/
theorem c8_bootstrap_counterexample :
    getInfo {} none = GetInfoResult.retUndefined ∧
    getInfo {} none ≠ GetInfoResult.threw JsError.noChildOrMasterOrBadMode ∧
    clusterClientBootstrap {} none = Except.error JsError.typeError ∧
    clusterClientBootstrap {} none ≠ Except.error JsError.noChildOrMasterOrBadMode := by
  refine ⟨rfl, by decide, rfl, ?_⟩
  intro h
  rw [show clusterClientBootstrap {} none = Except.error JsError.typeError from rfl] at h
  simp at h

/-- C8 (amended): a `CLUSTER_MANAGER_MODE` that is **present but invalid**
fails fast with `NoChildOrMasterOrBadMode`; an **absent** (or empty, hence
falsy) value makes `getInfo` return `undefined`, and the constructor then
fails on the `this.info.CLUSTER_MANAGER_MODE` access with a `TypeError`
instead. -/
theorem c8_bootstrap_amended (m : String) (wd : Option BootInfo)
    (h1 : m ≠ "") (h2 : m ≠ "worker") (h3 : m ≠ "process") :
    getInfo { CLUSTER_MANAGER_MODE := some m } wd
      = GetInfoResult.threw JsError.noChildOrMasterOrBadMode ∧
    clusterClientBootstrap { CLUSTER_MANAGER_MODE := some m } wd
      = Except.error JsError.noChildOrMasterOrBadMode ∧
    getInfo {} wd = GetInfoResult.retUndefined ∧
    clusterClientBootstrap {} wd = Except.error JsError.typeError := by
  have hg : getInfo { CLUSTER_MANAGER_MODE := some m } wd
      = GetInfoResult.threw JsError.noChildOrMasterOrBadMode := by
    simp [getInfo, h1, h2, h3]
  exact ⟨hg, by simp [clusterClientBootstrap, hg], rfl, rfl⟩

/-- C8 amended witness at the invalid mode string `"banana"`. -/
theorem c8_bootstrap_amended_witness :
    getInfo { CLUSTER_MANAGER_MODE := some "banana" } none
      = GetInfoResult.threw JsError.noChildOrMasterOrBadMode ∧
    clusterClientBootstrap { CLUSTER_MANAGER_MODE := some "banana" } none
      = Except.error JsError.noChildOrMasterOrBadMode := by
  have h := c8_bootstrap_amended "banana" none (by decide) (by decide) (by decide)
  exact ⟨h.1, h.2.1⟩

/-- C9: the child-side dispatcher fires the `message` event only for envelopes
with a truthy `_sCustom` and a falsy `_sReply`, and an envelope matching none
of the seven handled kinds is dropped: no state change, no event, no
exception. -/
theorem c9_client_emit_only_custom (evalFn : String → Except JsError JV) (now : Nat)
    (st : ClientState) (m : CMsg) :
    (((ClusterClient.handleMessage evalFn now st (some m)).2.1.any isEmitMessage = true) →
      (m._sCustom = true ∧ m._sReply = false)) ∧
    (cNoKindMatch m = true →
      ClusterClient.handleMessage evalFn now st (some m) = (st, [], none)) := by
  constructor
  · intro h
    simp only [ClusterClient.handleMessage] at h
    split_ifs at h
    all_goals try ((exfalso; (repeat' split at h) <;> simp [isEmitMessage] at h); done)
    refine ⟨by assumption, ?_⟩
    simp_all
  · intro hm
    simp only [cNoKindMatch, Bool.and_eq_true, Bool.not_eq_true'] at hm
    obtain ⟨⟨⟨⟨⟨⟨hf, he⟩, hreq⟩, hresp⟩, hmresp⟩, hack⟩, hcust⟩ := hm
    simp [ClusterClient.handleMessage, hf, he, hreq, hresp, hmresp, hack, hcust]

/-- C9 witness: a bare `{_sCustom: true}` envelope is emitted as `message`;
an envelope with no recognized kind at all is dropped with no effect. -/
theorem c9_client_emit_only_custom_witness :
    (({ _sCustom := true } : CMsg)._sCustom = true ∧
      ({ _sCustom := true } : CMsg)._sReply = false) ∧
    (ClusterClient.handleMessage (fun _ => Except.ok JV.undef) 0 {} (some {})
      = ({}, [], none)) := by
  constructor
  · exact (c9_client_emit_only_custom (fun _ => Except.ok JV.undef) 0 {}
      { _sCustom := true }).1 rfl
  · exact (c9_client_emit_only_custom (fun _ => Except.ok JV.undef) 0 {} {}).2 rfl

/-- C10: on the manager side the `message` event fires exactly for envelopes
matching no early-returning discriminator — so `_sCustom`, alone among the
recognized kinds, falls through to the trailing emit; in that fall-through the
`clientRequest` emission happens exactly when the `IPCMessage` wrapper carries
`_sRequest`; and a `_sCustom` + `_sReply` envelope with a registered nonce
additionally resolves the waiter with the whole envelope, removes the nonce,
and still reaches the `message` emission. -/
theorem c10_custom_falls_through (selfId now : Nat) (st : MgrState) (m : MMsg) :
    (hasEmitMessageEv (Cluster.handleMessage selfId now st (some m)).2
      = !(earlyReturnMatch m)) ∧
    (earlyReturnMatch m = false →
      hasClientRequestEv (Cluster.handleMessage selfId now st (some m)).2
        = (ipcMessageOf m)._sRequest) ∧
    (earlyReturnMatch m = false → m._sCustom = true → m._sReply = true →
      ∀ n, m.nonce = some n → (st.nonceMap.lookup n).isSome = true →
        ((Cluster.handleMessage selfId now st (some m)).2 =
          MEvent.settleResolveWithMsg n m ::
            ((if m._sRequest = true then [MEvent.emitClientRequest] else [])
              ++ [MEvent.emitMessage])) ∧
        ((Cluster.handleMessage selfId now st (some m)).1.nonceMap.lookup n = none)) := by
  refine ⟨?_, ?_, ?_⟩
  · cases h1 : m._ready with
    | true => simp [Cluster.handleMessage, earlyReturnMatch, h1, hasEmitMessageEv, isMEmitMessage]
    | false =>
    cases h2 : m._disconnect with
    | true =>
      simp [Cluster.handleMessage, earlyReturnMatch, h1, h2, hasEmitMessageEv, isMEmitMessage]
    | false =>
    cases h3 : m._reconnecting with
    | true =>
      simp [Cluster.handleMessage, earlyReturnMatch, h1, h2, h3, hasEmitMessageEv, isMEmitMessage]
    | false =>
    cases h4 : m._keepAlive with
    | true =>
      simp only [Cluster.handleMessage, h1, h2, h3, h4, Bool.false_eq_true, if_false, if_true]
      (repeat' split) <;>
        simp [earlyReturnMatch, h1, h2, h3, h4, hasEmitMessageEv, isMEmitMessage]
    | false =>
    cases h5 : jsTruthyStr m._sFetchProp with
    | true =>
      simp [Cluster.handleMessage, earlyReturnMatch, h1, h2, h3, h4, h5,
        hasEmitMessageEv, isMEmitMessage]
    | false =>
    cases h6 : jsTruthyStr m._sEval with
    | true =>
      simp [Cluster.handleMessage, earlyReturnMatch, h1, h2, h3, h4, h5, h6,
        hasEmitMessageEv, isMEmitMessage]
    | false =>
    cases h7 : m.has_sManagerEval with
    | true =>
      simp [Cluster.handleMessage, earlyReturnMatch, h1, h2, h3, h4, h5, h6, h7,
        hasEmitMessageEv, isMEmitMessage]
    | false =>
    cases h8 : m.has_sClusterEval with
    | true =>
      simp [Cluster.handleMessage, earlyReturnMatch, h1, h2, h3, h4, h5, h6, h7, h8,
        hasEmitMessageEv, isMEmitMessage]
    | false =>
    cases h9 : m.has_sClusterEvalResponse with
    | true =>
      simp only [Cluster.handleMessage, h1, h2, h3, h4, h5, h6, h7, h8, h9,
        Bool.false_eq_true, if_false, if_true]
      (repeat' split) <;>
        simp [earlyReturnMatch, h1, h2, h3, h4, h5, h6, h7, h8, h9,
          hasEmitMessageEv, isMEmitMessage]
    | false =>
    cases h10 : m._sRespawnAll with
    | true =>
      simp [Cluster.handleMessage, earlyReturnMatch, h1, h2, h3, h4, h5, h6, h7, h8, h9, h10,
        hasEmitMessageEv, isMEmitMessage]
    | false =>
    cases h11 : m._spawnNextCluster with
    | true =>
      simp [Cluster.handleMessage, earlyReturnMatch, h1, h2, h3, h4, h5, h6, h7, h8, h9,
        h10, h11, hasEmitMessageEv, isMEmitMessage]
    | false =>
      simp only [Cluster.handleMessage, h1, h2, h3, h4, h5, h6, h7, h8, h9, h10, h11,
        Bool.false_eq_true, if_false]
      (repeat' split) <;>
        simp [earlyReturnMatch, h1, h2, h3, h4, h5, h6, h7, h8, h9, h10, h11,
          hasEmitMessageEv, isMEmitMessage]
  · intro hearly
    simp only [earlyReturnMatch, Bool.or_eq_false_iff] at hearly
    obtain ⟨⟨⟨⟨⟨⟨⟨⟨⟨⟨hr, hd⟩, hrc⟩, hk⟩, hfp⟩, hev⟩, hme⟩, hce⟩, hcer⟩, hra⟩, hsn⟩ := hearly
    simp only [Cluster.handleMessage, hr, hd, hrc, hk, hfp, hev, hme, hce, hcer, hra, hsn,
      Bool.false_eq_true, if_false, ipcMessageOf]
    (repeat' split) <;> simp_all [hasClientRequestEv, isMClientRequest]
  · intro hearly hcust hreply n hn hsome
    simp only [earlyReturnMatch, Bool.or_eq_false_iff] at hearly
    obtain ⟨⟨⟨⟨⟨⟨⟨⟨⟨⟨hr, hd⟩, hrc⟩, hk⟩, hfp⟩, hev⟩, hme⟩, hce⟩, hcer⟩, hra⟩, hsn⟩ := hearly
    obtain ⟨w, hw⟩ := Option.isSome_iff_exists.mp hsome
    constructor
    · simp [Cluster.handleMessage, hr, hd, hrc, hk, hfp, hev, hme, hce, hcer, hra, hsn,
        hcust, hreply, mnLookup, hn, hw, ipcMessageOf]
    · simp only [Cluster.handleMessage, hr, hd, hrc, hk, hfp, hev, hme, hce, hcer, hra, hsn,
        hcust, hreply, Bool.false_eq_true, if_false, mnLookup, mnErase, hn, hw]
      simp only [and_self, if_true]
      exact lookup_filter_ne st.nonceMap n

/-- C10 witness: a `{_sCustom, _sReply, nonce: 4}` envelope with a registered
waiter resolves it, removes the nonce and is still emitted as `message`. -/
theorem c10_custom_falls_through_witness :
    (hasEmitMessageEv (Cluster.handleMessage 0 0 { nonceMap := [(4, {})] }
        (some { _sCustom := true, _sReply := true, nonce := some 4 })).2 = true) ∧
    ((Cluster.handleMessage 0 0 { nonceMap := [(4, {})] }
        (some { _sCustom := true, _sReply := true, nonce := some 4 })).2 =
      [MEvent.settleResolveWithMsg 4 { _sCustom := true, _sReply := true, nonce := some 4 },
       MEvent.emitMessage]) ∧
    ((Cluster.handleMessage 0 0 { nonceMap := [(4, {})] }
        (some { _sCustom := true, _sReply := true, nonce := some 4 })).1.nonceMap.lookup 4
      = none) := by
  have h := c10_custom_falls_through 0 0 { nonceMap := [(4, {})] }
    { _sCustom := true, _sReply := true, nonce := some 4 }
  have h3 := h.2.2 rfl rfl rfl 4 rfl rfl
  refine ⟨?_, ?_, h3.2⟩
  · rw [h.1]; rfl
  · rw [h3.1]; rfl
